import Mathlib

set_option linter.unusedVariables false

/-!
Verification of `scripts/build_bundles.py` (OPML bundle builder and validator).

The script is shallowly embedded: XML element trees (`xml.etree.ElementTree`)
become the inductive type `Elem`; the filesystem of OPML source files becomes
a `Storage` map from path strings to parse outcomes; YAML bundle
configurations become the inductive type `Yaml`; printing of warnings and of
the feed-count report becomes explicit data in the results. Python functions
`validate_opml`, `merge_opml_files` and `build_bundle` are translated
one-to-one, including `ET.indent` and the `ElementTree.write` serializer that
`build_bundle` invokes.
-/

/-- An `xml.etree.ElementTree.Element`: tag, attributes (in document order,
as Python preserves dict insertion order), optional `.text`, optional
`.tail`, and the list of child elements. -/
inductive Elem where
  | mk (tag : String) (attrs : List (String × String)) (text : Option String)
       (tail : Option String) (children : List Elem)
deriving Repr

/-- The field `elem.tag`. -/
def Elem.tagOf : Elem → String
  | .mk t _ _ _ _ => t

/-- The field `elem.attrib` as an association list. -/
def Elem.attrsOf : Elem → List (String × String)
  | .mk _ a _ _ _ => a

/-- The field `elem.text`. -/
def Elem.textOf : Elem → Option String
  | .mk _ _ x _ _ => x

/-- The field `elem.tail`. -/
def Elem.tailOf : Elem → Option String
  | .mk _ _ _ tl _ => tl

/-- The result of `list(elem)`: the child elements. -/
def Elem.childrenOf : Elem → List Elem
  | .mk _ _ _ _ cs => cs

/-- The predicate of the XPath step `outline[@type='rss']` used at lines 51
and 154: tag equals `outline` and the `type` attribute equals `rss`. -/
def isRssOutline (e : Elem) : Bool :=
  e.tagOf == "outline" && e.attrsOf.lookup "type" == some "rss"

/-- All elements of the list together with all their descendants, in
document order: the elements an XPath `.//` search visits when started from
a node whose children are the given list. -/
def descList : List Elem → List Elem
  | [] => []
  | Elem.mk t a x tl cs :: rest =>
      Elem.mk t a x tl cs :: (descList cs ++ descList rest)

/-- The number of `type="rss"` outline elements among the given elements and
their descendants. -/
def rssOutlineCount (cs : List Elem) : Nat :=
  ((descList cs).filter isRssOutline).length

/-- The expression `len(root.findall(".//outline[@type='rss']"))` at line 51
(validator report) and line 154 (bundle report): `.//` matches every
descendant of `root`, at any depth and under any section. -/
def rssFindallCount (root : Elem) : Nat :=
  rssOutlineCount root.childrenOf

/-- The method `elem.find(tag)`: the first direct child whose tag matches. -/
def findChild (e : Elem) (tag : String) : Option Elem :=
  e.childrenOf.find? (fun c => c.tagOf == tag)

/-- What `ET.parse(file_path)` did before `validate_opml`'s structural checks
run: produced a root element, raised `ET.ParseError` (malformed markup), or
raised some other exception (e.g. `FileNotFoundError`), with the exception's
`str(e)` message. -/
inductive ParseOutcome where
  | ok (root : Elem)
  | parseError (msg : String)
  | otherError (msg : String)

/-- Python `OPMLValidator.validate_opml` (lines 25-62), with the `ET.parse` step
abstracted into the `ParseOutcome` argument. The `try`/`except ET.ParseError`
/`except Exception` structure becomes the three constructors; the structural
checks translate the `if` chain at lines 37-54 in order (root tag, then
`head`, then `body`, then the rss count). -/
def validate_opml : ParseOutcome → Bool × String
  | .parseError msg => (false, "XML parsing error: " ++ msg)
  | .otherError msg => (false, "Unexpected error: " ++ msg)
  | .ok root =>
      if root.tagOf ≠ "opml" then
        (false, "Root element is '" ++ root.tagOf ++ "', expected 'opml'")
      else
        match findChild root "head", findChild root "body" with
        | none, _ => (false, "Missing required <head> element")
        | some _, none => (false, "Missing required <body> element")
        | some _, some _ =>
            if rssFindallCount root = 0 then (false, "No RSS feeds found in file")
            else (true, "")

/-- The feed count reported on the validator's success path (line 56 prints
`rss_count`, computed at line 51). -/
def validate_feed_report (root : Elem) : Nat :=
  rssFindallCount root

/-- The claim's notion of a document's feed count: `type="rss"` outlines at
any depth under the `body` section only. Stated from the spec's words, to be
compared with `rssFindallCount`, which the code computes from the root. -/
def spec_feed_count_under_body (root : Elem) : Nat :=
  match findChild root "body" with
  | some b => rssOutlineCount b.childrenOf
  | none => 0

/-- The filesystem of OPML sources, keyed by source path (already resolved
against `base_dir`): `none` when `source_path.exists()` is false; otherwise
the outcome of `ET.parse(source_path)` — a root element, or the message of
the exception it raised. -/
abbrev Storage := String → Option (Except String Elem)

/-- A value produced by `yaml.safe_load` for a bundle configuration file:
`null` (what an empty file deserializes to), a string scalar, a sequence,
or a mapping with string keys. -/
inductive Yaml where
  | null
  | str (s : String)
  | seq (items : List Yaml)
  | map (entries : List (String × Yaml))

/-- The source loop of `merge_opml_files` (lines 101-118), with the mutable
`body` element's child list and the printed warnings as explicit
accumulators. A missing file warns and skips (lines 104-106); a parse
failure is caught and warns (lines 117-118); a parsed source with a `body`
appends that body's children in order (lines 110-115). -/
def mergeLoop (storage : Storage) : List String → List Elem → List String →
    List Elem × List String
  | [], bodyAcc, warnAcc => (bodyAcc, warnAcc)
  | s :: rest, bodyAcc, warnAcc =>
      match storage s with
      | none =>
          mergeLoop storage rest bodyAcc
            (warnAcc ++ ["Warning: Source file not found: " ++ s])
      | some (Except.error e) =>
          mergeLoop storage rest bodyAcc
            (warnAcc ++ ["Warning: Failed to process " ++ s ++ ": " ++ e])
      | some (Except.ok root) =>
          match findChild root "body" with
          | none => mergeLoop storage rest bodyAcc warnAcc
          | some sb => mergeLoop storage rest (bodyAcc ++ sb.childrenOf) warnAcc

/-- Python `BundleBuilder.merge_opml_files` (lines 78-120): builds
`<opml version="2.0">` with a `head` holding `<title>bundle_name</title>`
and a `body` filled by the source loop; returns the root element plus the
warnings printed along the way. `bundle_desc` is accepted (dynamically
typed, hence `Yaml`-valued later) and never used — exactly as in the
source. -/
def merge_opml_files (storage : Storage) (source_files : List String)
    (bundle_name : String) (bundle_desc : Yaml) : Elem × List String :=
  let headElem := Elem.mk "head" [] none none
    [Elem.mk "title" [] (some bundle_name) none []]
  let (bodyChildren, warnings) := mergeLoop storage source_files [] []
  (Elem.mk "opml" [("version", "2.0")] none none
    [headElem, Elem.mk "body" [] none none bodyChildren], warnings)

/-- Per-source contribution to the merged body (the effect of lines 104-115
on one source): the direct children of the source's `body` when the file
exists and parses, nothing otherwise. -/
def sourceBodyChildren (storage : Storage) (s : String) : List Elem :=
  match storage s with
  | some (Except.ok root) =>
      match findChild root "body" with
      | some sb => sb.childrenOf
      | none => []
  | _ => []

/-- Per-source warning produced by lines 104-106 and 117-118. -/
def sourceWarning (storage : Storage) (s : String) : Option String :=
  match storage s with
  | none => some ("Warning: Source file not found: " ++ s)
  | some (Except.error e) =>
      some ("Warning: Failed to process " ++ s ++ ": " ++ e)
  | some (Except.ok _) => none

/-- Python `xml.etree.ElementTree._escape_cdata`: text content escaping, in the
source's replacement order. -/
def escape_cdata (s : String) : String :=
  ((s.replace "&" "&amp;").replace "<" "&lt;").replace ">" "&gt;"

/-- Python `xml.etree.ElementTree._escape_attrib`: attribute value escaping, in the
source's replacement order. -/
def escape_attrib (s : String) : String :=
  (((((((s.replace "&" "&amp;").replace "<" "&lt;").replace ">" "&gt;"
    ).replace "\"" "&quot;").replace "\r" "&#13;").replace "\n" "&#10;"
    ).replace "\t" "&#09;")

/-- The attribute part of a serialized start tag: one ` k="v"` per
attribute, in order. -/
def serializeAttrs : List (String × String) → String
  | [] => ""
  | (k, v) :: rest => " " ++ k ++ "=\"" ++ escape_attrib v ++ "\"" ++ serializeAttrs rest

/-- Python truthiness of an optional string (`if text:`): present and
non-empty. -/
def textTruthy : Option String → Bool
  | none => false
  | some t => t != ""

/-- The statement `if text: write(_escape_cdata(text))` as a pure value. -/
def cdataOpt : Option String → String
  | none => ""
  | some t => escape_cdata t

/-- Python `xml.etree.ElementTree._serialize_xml` over a list of sibling elements
(no namespaces are in play and `short_empty_elements` is the default
`True`): each element serializes as `<tag attrs />` when its text is falsy
and it has no children, else as `<tag attrs>text children</tag>`, followed
by its tail text. -/
def serializeList : List Elem → String
  | [] => ""
  | Elem.mk t a x tl cs :: rest =>
      "<" ++ t ++ serializeAttrs a ++
      (if textTruthy x || !cs.isEmpty then
        ">" ++ cdataOpt x ++ serializeList cs ++ "</" ++ t ++ ">"
      else " />") ++
      cdataOpt tl ++ serializeList rest

/-- Python falsy-or-blank test used by `ET.indent`
(`not s or not s.strip()`). -/
def blankOpt : Option String → Bool
  | none => true
  | some s => s.trim == ""

/-- The string `level * space` for the fixed `space="    "` that line 150 passes. -/
def indentN : Nat → String
  | 0 => ""
  | n + 1 => indentN n ++ "    "

/-- The tail rewriting `ET.indent._indent_children` performs on a child
list: every child whose tail is falsy or blank gets `childInd`
(`"\n" + (level+1)*space`), and the last child, when its (updated) tail is
blank, instead ends with `dedentInd` (`"\n" + level*space`). -/
def setTails : List Elem → String → String → List Elem
  | [], _, _ => []
  | [Elem.mk t a x tl cs], _, dedentInd =>
      [Elem.mk t a x (if blankOpt tl then some dedentInd else tl) cs]
  | Elem.mk t a x tl cs :: next :: rest, childInd, dedentInd =>
      Elem.mk t a x (if blankOpt tl then some childInd else tl) cs ::
        setTails (next :: rest) childInd dedentInd

/-- Recursive body of `ET.indent`: processes a sibling list sitting at the
given level. An element with children gets its text set to the child
indentation when blank, and its children's tails rewritten by `setTails`;
an element without children is untouched (`if not len(tree): return` and
the inner `if len(child):` guard). -/
def indentRec : List Elem → Nat → List Elem
  | [], _ => []
  | Elem.mk t a x tl cs :: rest, level =>
      (if cs.isEmpty then Elem.mk t a x tl cs
      else
        Elem.mk t a
          (if blankOpt x then some ("\n" ++ indentN (level + 1)) else x) tl
          (setTails (indentRec cs (level + 1)) ("\n" ++ indentN (level + 1))
            ("\n" ++ indentN level))) ::
      indentRec rest level

/-- Python `ET.indent(tree, space="    ")` (line 150): the root is processed at
level 0; a childless root is returned unchanged; the root's own tail is
never touched. -/
def ET_indent (root : Elem) : Elem :=
  match indentRec [root] 0 with
  | r :: _ => r
  | [] => root

/-- Python `tree.write(output_path, encoding="UTF-8", xml_declaration=True)`
(line 151): the XML declaration line followed by the serialized root. -/
def ET_write (root : Elem) : String :=
  "<?xml version='1.0' encoding='UTF-8'?>\n" ++ serializeList [root]

/-- Python `dict.get(key, default)` on a deserialized mapping. -/
def yget (entries : List (String × Yaml)) (key : String) (dflt : Yaml) : Yaml :=
  match entries.lookup key with
  | some v => v
  | none => dflt

/-- A configuration value used where Python needs a `str`. -/
def asString : Yaml → Option String
  | .str s => some s
  | _ => none

/-- A configuration value used where Python iterates path strings. -/
def asStringList : Yaml → Option (List String)
  | .seq items => items.mapM asString
  | _ => none

/-- Observable outcome of one `build_bundle` call: the returned bool, the
serialized file written to `dist/` (output filename and content) if any,
the feed count printed at line 155 if reached, and the merge warnings. -/
structure BuildResult where
  success : Bool
  written : Option (String × String)
  feedReport : Option Nat
  warnings : List String
deriving Repr

/-- The `BuildResult` of a `build_bundle` call that raised into the
`except` at lines 159-161: returns `False`, nothing written. -/
def buildFailure : BuildResult :=
  { success := false, written := none, feedReport := none, warnings := [] }

/-- Python `BundleBuilder.build_bundle` (lines 122-161), with the configuration
already deserialized (`load_bundle_config` is `yaml.safe_load`, an external
facility) and the filesystem abstracted by `storage`. When the config is
not a mapping, `config.get` at line 132 raises `AttributeError`, landing in
the `except` — before any output is written. When a field holds a value of
the wrong dynamic type, the build likewise ends in the `except` (e.g. a
non-string name fails inside `tree.write`); this embedding folds all those
exception paths into `buildFailure`. Otherwise the merge, `ET.indent`, the
serialization to the output file and the feed-count report all succeed and
the function returns `True`. -/
def build_bundle (storage : Storage) : Yaml → BuildResult
  | .map entries =>
      (match asString (yget entries "name" (.str "Unnamed Bundle")),
             asString (yget entries "output" (.str "bundle.opml.xml")),
             asStringList (yget entries "sources" (.seq [])) with
      | some bundle_name, some output_file, some source_files =>
          let bundle_desc := yget entries "description" (.str "")
          let (merged_opml, warns) :=
            merge_opml_files storage source_files bundle_name bundle_desc
          { success := true
            written := some (output_file, ET_write (ET_indent merged_opml))
            feedReport := some (rssFindallCount merged_opml)
            warnings := warns }
      | _, _, _ => buildFailure)
  | _ => buildFailure

/-- A leaf feed entry: `<outline type="rss" xmlUrl="..."/>`. -/
def feedOutline (url : String) : Elem :=
  Elem.mk "outline" [("type", "rss"), ("xmlUrl", url)] none none []

/-- A well-formed document whose `head` also carries a `type="rss"` outline
in addition to the one under `body`. Root tag `opml`, `head` present,
`body` present, at least one rss entry: valid in the sense of C3. -/
def docHeadFeed : Elem :=
  Elem.mk "opml" [("version", "1.0")] none none
    [ Elem.mk "head" [] none none
        [Elem.mk "title" [] (some "Tech") none [], feedOutline "http://h.example/f"]
    , Elem.mk "body" [] none none [feedOutline "http://b.example/f"] ]

/-- An ordinary valid document: `head` with a title, `body` with two feed
outlines, one nested inside a group outline. -/
def docValid : Elem :=
  Elem.mk "opml" [("version", "1.0")] none none
    [ Elem.mk "head" [] none none [Elem.mk "title" [] (some "Tech") none []]
    , Elem.mk "body" [] none none
        [ feedOutline "http://a.example/f"
        , Elem.mk "outline" [("text", "Group")] none none
            [feedOutline "http://g.example/f"] ] ]

/-- A well-formed document with root tag `opml` but neither a `head` nor a
`body` child. -/
def docBare : Elem :=
  Elem.mk "opml" [("version", "1.0")] none none []

/-- A well-formed document with root tag `opml` and a `head` child but no
`body` child. -/
def docHeadOnly : Elem :=
  Elem.mk "opml" [("version", "1.0")] none none
    [Elem.mk "head" [] none none [Elem.mk "title" [] (some "Tech") none []]]

/-- A filesystem with no OPML sources at all. -/
def emptyStorage : Storage := fun _ => none

/-- A filesystem holding one parseable document at `a.opml.xml`, one file
with malformed markup at `bad.opml.xml`, and nothing else. -/
def sampleStorage : Storage := fun path =>
  if path = "a.opml.xml" then some (Except.ok docValid)
  else if path = "bad.opml.xml" then
    some (Except.error "not well-formed (invalid token): line 1, column 0")
  else none

/-- Observable behavior of `build_bundle` as a function of the three
configuration lookups it is sensitive to (the `description` lookup is also
performed but its value is dead). Helper for reasoning; `build_bundle_map`
proves it agrees with `build_bundle`. -/
def buildFromFields (storage : Storage)
    (nameV outV srcsV : Option Yaml) : BuildResult :=
  match asString (nameV.getD (.str "Unnamed Bundle")),
        asString (outV.getD (.str "bundle.opml.xml")),
        asStringList (srcsV.getD (.seq [])) with
  | some bundle_name, some output_file, some source_files =>
      let (merged_opml, warns) :=
        merge_opml_files storage source_files bundle_name (.str "")
      { success := true
        written := some (output_file, ET_write (ET_indent merged_opml))
        feedReport := some (rssFindallCount merged_opml)
        warnings := warns }
  | _, _, _ => buildFailure

/-- The merge loop appends, after the accumulated body children and
warnings, exactly the per-source contributions and warnings, in source-list
order. -/
lemma mergeLoop_spec (storage : Storage) (srcs : List String) :
    ∀ (bodyAcc : List Elem) (warnAcc : List String),
    mergeLoop storage srcs bodyAcc warnAcc =
      (bodyAcc ++ srcs.flatMap (sourceBodyChildren storage),
       warnAcc ++ srcs.filterMap (sourceWarning storage)) := by
  induction srcs with
  | nil => intro b w; simp [mergeLoop]
  | cons s rest ih =>
    intro b w
    cases hs : storage s with
    | none =>
        simp [mergeLoop, hs, ih, sourceBodyChildren, sourceWarning]
    | some r =>
        cases r with
        | error e =>
            simp [mergeLoop, hs, ih, sourceBodyChildren, sourceWarning]
        | ok root =>
            cases hb : findChild root "body" with
            | none =>
                simp [mergeLoop, hs, hb, ih, sourceBodyChildren, sourceWarning]
            | some sb =>
                simp [mergeLoop, hs, hb, ih, sourceBodyChildren, sourceWarning]

/-- Closed form of `merge_opml_files`: the merged document and the warning
list, with the body children given as a source-order concatenation. -/
lemma merge_opml_files_eq (storage : Storage) (source_files : List String)
    (bundle_name : String) (bundle_desc : Yaml) :
    merge_opml_files storage source_files bundle_name bundle_desc =
      (Elem.mk "opml" [("version", "2.0")] none none
        [ Elem.mk "head" [] none none
            [Elem.mk "title" [] (some bundle_name) none []]
        , Elem.mk "body" [] none none
            (source_files.flatMap (sourceBodyChildren storage)) ],
       source_files.filterMap (sourceWarning storage)) := by
  simp [merge_opml_files, mergeLoop_spec]

/-- The `.//` traversal distributes over concatenation of sibling lists. -/
lemma descList_append (xs ys : List Elem) :
    descList (xs ++ ys) = descList xs ++ descList ys := by
  induction xs with
  | nil => simp [descList]
  | cons e rest ih => cases e; simp [descList, ih]

/-- The rss count of a concatenation of per-source blocks is the sum of the
per-block rss counts. -/
lemma rssOutlineCount_flatMap {α : Type} (f : α → List Elem) (l : List α) :
    rssOutlineCount (l.flatMap f)
      = (l.map (fun s => rssOutlineCount (f s))).sum := by
  induction l with
  | nil => simp [rssOutlineCount, descList]
  | cons s rest ih =>
      simp [rssOutlineCount, descList_append, List.filter_append] at ih ⊢
      omega

/-- The findall count of a merged document is the rss count of its body
children: the constructed `head` contains only the `title` element and
contributes nothing. -/
lemma rssFindallCount_merged (bundle_name : String) (bc : List Elem) :
    rssFindallCount
      (Elem.mk "opml" [("version", "2.0")] none none
        [ Elem.mk "head" [] none none
            [Elem.mk "title" [] (some bundle_name) none []]
        , Elem.mk "body" [] none none bc ]) = rssOutlineCount bc := by
  simp [rssFindallCount, rssOutlineCount, Elem.childrenOf, descList,
    isRssOutline, Elem.tagOf, Elem.attrsOf]

/-- What one source contributes to the merged feed count, phrased as the
claims phrase it: a found-and-parsed source contributes its under-body
feed count, any other source contributes zero. -/
lemma rssOutlineCount_sourceBodyChildren (storage : Storage) (s : String) :
    rssOutlineCount (sourceBodyChildren storage s)
      = (match storage s with
         | some (Except.ok root) => spec_feed_count_under_body root
         | _ => 0) := by
  cases hs : storage s with
  | none => simp [sourceBodyChildren, hs, rssOutlineCount, descList]
  | some r =>
      cases r with
      | error e => simp [sourceBodyChildren, hs, rssOutlineCount, descList]
      | ok root =>
          cases hb : findChild root "body" with
          | none =>
              simp [sourceBodyChildren, hs, hb, spec_feed_count_under_body,
                rssOutlineCount, descList]
          | some sb =>
              simp [sourceBodyChildren, hs, hb, spec_feed_count_under_body]

/-- The function `build_bundle` on a mapping depends only on the `name`, `output` and
`sources` lookups; the `description` value is read but dead (the proof's
`rfl` cases go through because `merge_opml_files` never consumes it). -/
lemma build_bundle_map (storage : Storage) (entries : List (String × Yaml)) :
    build_bundle storage (.map entries)
      = buildFromFields storage (entries.lookup "name")
          (entries.lookup "output") (entries.lookup "sources") := by
  simp only [build_bundle, buildFromFields, yget]
  cases entries.lookup "name" <;>
    cases entries.lookup "output" <;>
      cases entries.lookup "sources" <;> rfl

/-- Sources that are all absent from storage contribute no body children. -/
lemma flatMap_sourceBodyChildren_missing (storage : Storage)
    (srcs : List String) (h : ∀ s ∈ srcs, storage s = none) :
    srcs.flatMap (sourceBodyChildren storage) = [] := by
  induction srcs with
  | nil => simp
  | cons s rest ih =>
      have hs : storage s = none := h s (by simp)
      simp [sourceBodyChildren, hs, ih fun t ht => h t (by simp [ht])]

/-- Sources that are all absent from storage each produce exactly the
missing-file warning. -/
lemma filterMap_sourceWarning_missing (storage : Storage)
    (srcs : List String) (h : ∀ s ∈ srcs, storage s = none) :
    srcs.filterMap (sourceWarning storage)
      = srcs.map (fun s => "Warning: Source file not found: " ++ s) := by
  induction srcs with
  | nil => simp
  | cons s rest ih =>
      have hs : storage s = none := h s (by simp)
      simp [sourceWarning, hs, ih fun t ht => h t (by simp [ht])]

/-- C1: for every bundle, the merged output's feed count (the
`findall(".//outline[@type='rss']")` length that `build_bundle` reports)
equals the sum, over exactly the sources that exist on storage and parse
without error, of that source's under-body feed count; a missing or
erroring source contributes 0 and instead lands one warning in the merge's
warning list — the merge is total, so no source aborts the build. -/
theorem C1_merged_feed_count_sums_sources (storage : Storage)
    (source_files : List String) (bundle_name : String) (bundle_desc : Yaml) :
    rssFindallCount
        (merge_opml_files storage source_files bundle_name bundle_desc).1
      = (source_files.map (fun s =>
          match storage s with
          | some (Except.ok root) => spec_feed_count_under_body root
          | _ => 0)).sum
    ∧ (merge_opml_files storage source_files bundle_name bundle_desc).2
      = source_files.filterMap (sourceWarning storage) := by
  constructor
  · simp [merge_opml_files_eq, rssFindallCount_merged, rssOutlineCount_flatMap,
      rssOutlineCount_sourceBodyChildren]
  · simp [merge_opml_files_eq]

/-- C2: the merged output document is `<opml version="2.0">` holding the
constructed head and a body whose children are exactly the direct children
of each successfully loaded source's body, concatenated in source-list
order, each kept as an intact subtree (`sourceBodyChildren` returns the
source's child elements unchanged). -/
theorem C2_merged_body_is_ordered_concatenation (storage : Storage)
    (source_files : List String) (bundle_name : String) (bundle_desc : Yaml) :
    (merge_opml_files storage source_files bundle_name bundle_desc).1
      = Elem.mk "opml" [("version", "2.0")] none none
          [ Elem.mk "head" [] none none
              [Elem.mk "title" [] (some bundle_name) none []]
          , Elem.mk "body" [] none none
              (source_files.flatMap (sourceBodyChildren storage)) ] := by
  simp [merge_opml_files_eq]

/-- C3 counterexample: `docHeadFeed` is valid in the claim's sense (root
`opml`, `head` present, `body` present, an rss entry present), and
`validate_opml` succeeds on it — but the feed count the validator reports
is 2 (it searches the whole document, `head` included), while the number
of `type="rss"` entries under the `body` section is 1. -/
theorem C3_report_counts_outside_body :
    validate_opml (.ok docHeadFeed) = (true, "")
    ∧ validate_feed_report docHeadFeed = 2
    ∧ spec_feed_count_under_body docHeadFeed = 1 := by
  refine ⟨?_, ?_, ?_⟩ <;>
    simp [validate_opml, validate_feed_report, spec_feed_count_under_body,
      docHeadFeed, feedOutline, findChild, Elem.childrenOf, Elem.tagOf,
      Elem.attrsOf, List.find?, rssFindallCount, rssOutlineCount, descList,
      isRssOutline]

/-- C3 (amended): for every document with root tag `opml`, a `head` child,
a `body` child and at least one `type="rss"` outline anywhere below the
root, `validate_opml` returns `(true, "")`, and the feed count it reports
is the number of `type="rss"` outlines at any depth under the document
root — which coincides with the count under the `body` section whenever
every `type="rss"` outline of the document lies under the `body`
section. -/
theorem C3_valid_doc_reports_document_count (root : Elem)
    (htag : root.tagOf = "opml")
    (hhead : (findChild root "head").isSome)
    (hbody : (findChild root "body").isSome)
    (hfeeds : 0 < rssFindallCount root) :
    validate_opml (.ok root) = (true, "")
    ∧ validate_feed_report root = rssFindallCount root
    ∧ (∀ b, findChild root "body" = some b →
        (descList root.childrenOf).filter isRssOutline
          = (descList b.childrenOf).filter isRssOutline →
        validate_feed_report root = spec_feed_count_under_body root) := by
  obtain ⟨h, hh⟩ := Option.isSome_iff_exists.mp hhead
  obtain ⟨b, hb⟩ := Option.isSome_iff_exists.mp hbody
  refine ⟨?_, rfl, ?_⟩
  · simp [validate_opml, htag, hh, hb, Nat.pos_iff_ne_zero.mp hfeeds]
  · intro b' hb' hfilter
    simp [validate_feed_report, spec_feed_count_under_body, hb',
      rssFindallCount, rssOutlineCount, hfilter]

/-- C3 witness: the amended theorem applied to the concrete valid document
`docValid` (two feeds, one nested in a group). -/
theorem C3_valid_doc_validates_witness :
    validate_opml (.ok docValid) = (true, "")
    ∧ validate_feed_report docValid = rssFindallCount docValid := by
  have h := C3_valid_doc_reports_document_count docValid
    (by simp [docValid, Elem.tagOf])
    (by simp [findChild, docValid, Elem.childrenOf, Elem.tagOf, List.find?])
    (by simp [findChild, docValid, Elem.childrenOf, Elem.tagOf, List.find?])
    (by simp [rssFindallCount, rssOutlineCount, docValid, feedOutline,
      Elem.childrenOf, descList, isRssOutline, Elem.tagOf, Elem.attrsOf])
  exact ⟨h.1, h.2.1⟩

/-- C4 counterexample: `docBare` is well-formed, has root tag `opml` and no
`body` child — yet `validate_opml` does not report the missing-body reason:
the `head` check at line 44 fires first, so head presence does matter. -/
theorem C4_head_check_precedes_body_check :
    validate_opml (.ok docBare) = (false, "Missing required <head> element")
    ∧ (validate_opml (.ok docBare)).2 ≠ "Missing required <body> element" := by
  constructor <;>
    simp [validate_opml, docBare, findChild, Elem.childrenOf, Elem.tagOf,
      List.find?]

/-- C4 (amended): for every well-formed document whose root tag is `opml`,
whose `head` child is present, and which has no `body` child,
`validate_opml` returns false with the missing-body reason, regardless of
the document's remaining content. -/
theorem C4_missing_body_reported (root : Elem)
    (htag : root.tagOf = "opml")
    (hhead : (findChild root "head").isSome)
    (hbody : findChild root "body" = none) :
    validate_opml (.ok root) = (false, "Missing required <body> element") := by
  obtain ⟨h, hh⟩ := Option.isSome_iff_exists.mp hhead
  simp [validate_opml, htag, hh, hbody]

/-- C4 witness: the amended theorem applied to `docHeadOnly`, which has a
`head` but no `body`. -/
theorem C4_missing_body_reported_witness :
    validate_opml (.ok docHeadOnly)
      = (false, "Missing required <body> element") :=
  C4_missing_body_reported docHeadOnly
    (by simp [docHeadOnly, Elem.tagOf])
    (by simp [findChild, docHeadOnly, Elem.childrenOf, Elem.tagOf, List.find?])
    (by simp [findChild, docHeadOnly, Elem.childrenOf, Elem.tagOf, List.find?])

/-- C5: when every configured source path is absent from storage, the build
still succeeds: `build_bundle` returns `True` and writes the serialization
of a well-formed document — root `opml` version `2.0`, a `head` whose
`title` is the bundle name, and a present but empty `body` — reporting a
feed count of 0, with one missing-file warning per source. -/
theorem C5_all_sources_missing_builds_empty (storage : Storage)
    (entries : List (String × Yaml)) (bundle_name output_file : String)
    (source_files : List String)
    (hname : asString (yget entries "name" (.str "Unnamed Bundle"))
      = some bundle_name)
    (hout : asString (yget entries "output" (.str "bundle.opml.xml"))
      = some output_file)
    (hsrcs : asStringList (yget entries "sources" (.seq []))
      = some source_files)
    (hmiss : ∀ s ∈ source_files, storage s = none) :
    build_bundle storage (.map entries)
      = { success := true
          written := some (output_file, ET_write (ET_indent
            (Elem.mk "opml" [("version", "2.0")] none none
              [ Elem.mk "head" [] none none
                  [Elem.mk "title" [] (some bundle_name) none []]
              , Elem.mk "body" [] none none [] ])))
          feedReport := some 0
          warnings := source_files.map
            (fun s => "Warning: Source file not found: " ++ s) } := by
  simp only [build_bundle]
  rw [hname, hout, hsrcs]
  simp only [merge_opml_files_eq,
    flatMap_sourceBodyChildren_missing storage source_files hmiss,
    filterMap_sourceWarning_missing storage source_files hmiss,
    rssFindallCount_merged]
  simp [rssOutlineCount, descList]

/-- C5 witness: a bundle whose single source is missing from the (empty)
filesystem, with every other field defaulted. -/
theorem C5_all_sources_missing_witness :
    build_bundle emptyStorage
        (Yaml.map [("sources", Yaml.seq [Yaml.str "missing.opml.xml"])])
      = { success := true
          written := some ("bundle.opml.xml", ET_write (ET_indent
            (Elem.mk "opml" [("version", "2.0")] none none
              [ Elem.mk "head" [] none none
                  [Elem.mk "title" [] (some "Unnamed Bundle") none []]
              , Elem.mk "body" [] none none [] ])))
          feedReport := some 0
          warnings := ["Warning: Source file not found: missing.opml.xml"] } := by
  have h := C5_all_sources_missing_builds_empty emptyStorage
    [("sources", Yaml.seq [Yaml.str "missing.opml.xml"])]
    "Unnamed Bundle" "bundle.opml.xml" ["missing.opml.xml"]
    (by rfl) (by rfl) (by rfl) (by intro s hs; rfl)
  simpa using h

/-- C6: the `description` field is read from the configuration (line 133
binds it and passes it to the merge) but never written into the output:
two configurations agreeing on `name`, `output` and `sources` — and
differing arbitrarily, or only, in `description` — produce identical
`build_bundle` results, serialized output included. -/
theorem C6_description_not_serialized (storage : Storage)
    (e1 e2 : List (String × Yaml))
    (hname : e1.lookup "name" = e2.lookup "name")
    (hout : e1.lookup "output" = e2.lookup "output")
    (hsrcs : e1.lookup "sources" = e2.lookup "sources") :
    build_bundle storage (.map e1) = build_bundle storage (.map e2) := by
  rw [build_bundle_map, build_bundle_map, hname, hout, hsrcs]

/-- C6 witness: two concrete configurations that differ only in their
`description` value yield the same build result. -/
theorem C6_description_not_serialized_witness :
    build_bundle emptyStorage
        (Yaml.map [("name", Yaml.str "Tech"), ("description", Yaml.str "first")])
      = build_bundle emptyStorage
        (Yaml.map [("name", Yaml.str "Tech"), ("description", Yaml.str "second")]) :=
  C6_description_not_serialized emptyStorage _ _ (by rfl) (by rfl) (by rfl)

/-- C7: an absent configuration field behaves exactly as if the documented
default were supplied explicitly: `name` as "Unnamed Bundle",
`description` as the empty string, `output` as "bundle.opml.xml", and
`sources` as the empty sequence. -/
theorem C7_absent_fields_take_defaults (storage : Storage)
    (entries : List (String × Yaml)) :
    (entries.lookup "name" = none →
      build_bundle storage (.map entries)
        = build_bundle storage (.map (("name", Yaml.str "Unnamed Bundle") :: entries)))
    ∧ (entries.lookup "description" = none →
      build_bundle storage (.map entries)
        = build_bundle storage (.map (("description", Yaml.str "") :: entries)))
    ∧ (entries.lookup "output" = none →
      build_bundle storage (.map entries)
        = build_bundle storage (.map (("output", Yaml.str "bundle.opml.xml") :: entries)))
    ∧ (entries.lookup "sources" = none →
      build_bundle storage (.map entries)
        = build_bundle storage (.map (("sources", Yaml.seq []) :: entries))) := by
  refine ⟨?_, ?_, ?_, ?_⟩ <;> intro h <;>
    rw [build_bundle_map, build_bundle_map] <;>
      simp [List.lookup, h, buildFromFields]

/-- C7 witness: building from the empty configuration mapping agrees with
building from each single-default mapping. -/
theorem C7_absent_fields_take_defaults_witness :
    (build_bundle emptyStorage (Yaml.map [])
      = build_bundle emptyStorage (Yaml.map [("name", Yaml.str "Unnamed Bundle")]))
    ∧ (build_bundle emptyStorage (Yaml.map [])
      = build_bundle emptyStorage (Yaml.map [("description", Yaml.str "")]))
    ∧ (build_bundle emptyStorage (Yaml.map [])
      = build_bundle emptyStorage (Yaml.map [("output", Yaml.str "bundle.opml.xml")]))
    ∧ (build_bundle emptyStorage (Yaml.map [])
      = build_bundle emptyStorage (Yaml.map [("sources", Yaml.seq [])])) := by
  have h := C7_absent_fields_take_defaults emptyStorage []
  exact ⟨h.1 rfl, h.2.1 rfl, h.2.2.1 rfl, h.2.2.2 rfl⟩

/-- C8: merge-and-serialize is deterministic in its inputs. The embedding
makes this structural: `build_bundle` is a function of the storage contents
and the configuration alone — no clock, counter or other run-varying input
occurs anywhere in `merge_opml_files`, `ET_indent` or `ET_write`, matching
the script, which never writes a timestamp — so two runs with unchanged
inputs produce equal results, serialized bytes included. -/
theorem C8_rebuild_is_byte_identical (storage1 storage2 : Storage)
    (config1 config2 : Yaml)
    (hs : storage1 = storage2) (hc : config1 = config2) :
    build_bundle storage1 config1 = build_bundle storage2 config2 := by
  rw [hs, hc]

/-- C8 witness: two runs over the same two-file filesystem and the same
configuration. -/
theorem C8_rebuild_is_byte_identical_witness :
    build_bundle sampleStorage
        (Yaml.map [("name", Yaml.str "Tech"),
          ("sources", Yaml.seq [Yaml.str "a.opml.xml", Yaml.str "bad.opml.xml"])])
      = build_bundle sampleStorage
        (Yaml.map [("name", Yaml.str "Tech"),
          ("sources", Yaml.seq [Yaml.str "a.opml.xml", Yaml.str "bad.opml.xml"])]) :=
  C8_rebuild_is_byte_identical sampleStorage sampleStorage _ _ rfl rfl

/-- C9: `validate_opml` never propagates an exception — it is a total
function into `Bool × String` by construction, mirroring the catch-all
`try`/`except` — and on a markup parse failure it returns false with the
parse diagnostic in the reason, while any other exception returns false
with the generic unexpected-error reason carrying the underlying
message. -/
theorem C9_validate_catches_all_errors (msg : String) :
    validate_opml (.parseError msg) = (false, "XML parsing error: " ++ msg)
    ∧ validate_opml (.otherError msg) = (false, "Unexpected error: " ++ msg) :=
  ⟨rfl, rfl⟩

/-- C10: a configuration whose deserialized top level is not a mapping —
an empty file deserializes to null, for instance — makes `build_bundle`
return false and write nothing, the documented field defaults
notwithstanding: `config.get` raises before any output path is touched. -/
theorem C10_non_mapping_config_fails (storage : Storage) (config : Yaml)
    (h : ∀ entries, config ≠ Yaml.map entries) :
    build_bundle storage config = buildFailure
    ∧ (build_bundle storage config).written = none := by
  cases config with
  | map entries => exact absurd rfl (h entries)
  | null => exact ⟨rfl, rfl⟩
  | str s => exact ⟨rfl, rfl⟩
  | seq items => exact ⟨rfl, rfl⟩

/-- C10 witness: the empty configuration file (top level null) fails and
writes nothing. -/
theorem C10_non_mapping_config_fails_witness :
    build_bundle emptyStorage Yaml.null = buildFailure
    ∧ (build_bundle emptyStorage Yaml.null).written = none :=
  C10_non_mapping_config_fails emptyStorage Yaml.null
    (by intro entries h; exact Yaml.noConfusion h)
